import Mathlib

/-!
Shallow embedding of `proxyChecker.py` (a concurrent proxy validation
pipeline) for checking its natural-language specification.

The network probe (`requests.get`) is an external collaborator; its result is
passed in explicitly as a `ReqResult` value.  Python exceptions are modelled
with `Except PyErr`.  The IP / CIDR parsing library (`netaddr`) is external as
well; it is modelled here for dotted-quad IPv4 addresses, which is all the
filtering algorithm built on top of it needs.
-/

set_option autoImplicit false
set_option linter.unusedVariables false

namespace ProxyChecker

/-- Python exception values that the program can raise. -/
inductive PyErr where
  | exception (msg : String)
  | typeError (msg : String)
  | valueError (msg : String)
  deriving Repr, DecidableEq

/-- The subset of Python values that can flow into the `text_absent` parameter
of `isGoodProxy`: `None`, a string, or a boolean (its default is `True`). -/
inductive PyVal where
  | none
  | str (s : String)
  | bool (b : Bool)
  deriving Repr, DecidableEq

/-- Embedding of the Python default value of the `text_absent` parameter of
`isGoodProxy`, which is the boolean `True` in the source. -/
def text_absent_default : PyVal := .bool true

/-- A `datetime.timedelta` as used for `response.elapsed`: a count of seconds
and of microseconds (`0 ≤ microseconds < 10^6` in Python; the days field is
irrelevant to the program and omitted). -/
structure Timedelta where
  seconds : Nat
  microseconds : Nat
  deriving Repr, DecidableEq

/-- Result of the external `requests.get` call: either a response (its body
text and elapsed time), a connectivity failure (`Timeout` or
`ConnectionError`), or any other exception. -/
inductive ReqResult where
  | response (text : String) (elapsed : Timedelta)
  | connectError
  | otherError (msg : String)
  deriving Repr, DecidableEq

/-- The dict returned by `isGoodProxy`. -/
structure ProbeOutcome where
  proxy_string : String
  proxy_type : String
  success : Bool
  response_time : Option Timedelta
  deriving Repr, DecidableEq

/-- Python `s.split(sep)` for a one-character separator, on the character
list: never drops empty pieces, and the split of the empty string is one
empty piece.  (Structural recursion, so that concrete instances evaluate
inside the kernel, which `String.splitOn` does not.) -/
def splitOnChar (sep : Char) : List Char → List (List Char)
  | [] => [[]]
  | c :: cs =>
    if c == sep then [] :: splitOnChar sep cs
    else
      match splitOnChar sep cs with
      | [] => [[c]]
      | piece :: rest => (c :: piece) :: rest

/-- Python `s.split(sep)` on strings, one-character separator. -/
def pySplit (s : String) (sep : Char) : List String :=
  (splitOnChar sep s.data).map String.mk

/-- Python `s.lower()` (ASCII case folding suffices for the proxy types the
program handles). -/
def pyLower (s : String) : String :=
  String.mk (s.data.map Char.toLower)

/-- Python `int(s)` restricted to unsigned decimal digit strings, as an
accumulator fold; `none` models `ValueError` / a `netaddr` parse failure. -/
def natOfDigits : Nat → List Char → Option Nat
  | acc, [] => some acc
  | acc, c :: cs =>
    if c.isDigit then natOfDigits (acc * 10 + (c.toNat - 48)) cs
    else Option.none

/-- Parse a nonempty all-digit string as a natural number. -/
def pyToNat (s : String) : Option Nat :=
  match s.data with
  | [] => Option.none
  | l => natOfDigits 0 l

/-- Boolean list-prefix test, used to decide the substring relation. -/
def isPrefixB : List Char → List Char → Bool
  | [], _ => true
  | _ :: _, [] => false
  | a :: as, b :: bs => a == b && isPrefixB as bs

/-- Boolean infix test: does `n` occur contiguously in the second list? -/
def strInAux (n : List Char) : List Char → Bool
  | [] => n.isEmpty
  | b :: bs => isPrefixB n (b :: bs) || strInAux n bs

/-- Python `needle in hay` on strings: substring test. -/
def strIn (needle hay : String) : Bool :=
  strInAux needle.data hay.data

/-- Embedding of `isGoodProxy` from `proxyChecker.py`.  The result of the
`requests.get` call is supplied as the explicit argument `req`.  Mirrors the
source line by line: the proxy-type guard raises for a type containing neither
`socks` nor `http`; a `Timeout`/`ConnectionError` and any other request
exception return a failure dict with `response_time = None`; on a response the
presence check runs first, then the absence check (`text_absent in
response.text` raises `TypeError` when `text_absent` is a boolean, as it is by
default), and the outcome carries `response.elapsed`. -/
def isGoodProxy (target_address proxy_string proxy_type : String) (timeout : Nat)
    (text_present : Option String) (text_absent : PyVal) (req : ReqResult) :
    Except PyErr ProbeOutcome :=
  if (!(strIn "socks" (pyLower proxy_type)) && !(strIn "http" (pyLower proxy_type))) = true then
    .error (.exception ("Invalid proxy type " ++ proxy_type))
  else
    match req with
    | .connectError =>
        .ok { proxy_string := proxy_string, proxy_type := proxy_type,
              success := false, response_time := none }
    | .otherError _ =>
        .ok { proxy_string := proxy_string, proxy_type := proxy_type,
              success := false, response_time := none }
    | .response text elapsed =>
        let present_flag :=
          match text_present with
          | Option.none => true
          | Option.some t => strIn t text
        match text_absent with
        | .bool _ =>
            .error (.typeError "in <string> requires string as left operand, not bool")
        | .none =>
            .ok { proxy_string := proxy_string, proxy_type := proxy_type,
                  success := present_flag && true, response_time := some elapsed }
        | .str t =>
            .ok { proxy_string := proxy_string, proxy_type := proxy_type,
                  success := present_flag && !(strIn t text),
                  response_time := some elapsed }

/-- The proxy-type guard of `isGoodProxy` passes: the type names a socks or
http style proxy. -/
def hasValidPtype (proxy_type : String) : Prop :=
  (strIn "socks" (pyLower proxy_type) || strIn "http" (pyLower proxy_type)) = true

instance (pt : String) : Decidable (hasValidPtype pt) := by
  unfold hasValidPtype; infer_instance

/-- One entry of the work queue: the dict built by the queue-filling loop of
`__main__`.  The loop always stores `args.text_present` / `args.text_absent`,
which argparse produces as `None` or a string, so the field is
`Option String` (the boolean default of `isGoodProxy` is unreachable from
`__main__`). -/
structure ProbeTask where
  target_address : String
  proxy_string : String
  timeout : Nat
  text_present : Option String
  text_absent : Option String
  proxy_type : String
  deriving Repr, DecidableEq

/-- Coercion of an argparse-produced optional string into the Python value
passed to `isGoodProxy`. -/
def pyOfOption : Option String → PyVal
  | Option.none => .none
  | Option.some s => .str s

/-- One iteration of the `worker` loop body on a real (non-sentinel) task:
call `isGoodProxy(**proxy_data)` — with no surrounding `try`, so an exception
escapes as `.error` — and put the result dict on the result queue exactly when
`results['success']` is truthy (`.ok (some r)`); on failure nothing is
emitted (`.ok none`).  `net` supplies the external network's response for the
task. -/
def workerStep (net : ProbeTask → ReqResult) (proxy_data : ProbeTask) :
    Except PyErr (Option ProbeOutcome) :=
  match isGoodProxy proxy_data.target_address proxy_data.proxy_string proxy_data.proxy_type
      proxy_data.timeout proxy_data.text_present (pyOfOption proxy_data.text_absent)
      (net proxy_data) with
  | .error e => .error e
  | .ok results => .ok (if results.success then some results else none)

/-- A worker consuming a list of tasks in order: the successful outcomes it
forwards to the result queue, or the first uncaught exception — which kills
the worker thread, leaving the remaining tasks of this run unprocessed and
`task_done` uncalled. -/
def workerRun (net : ProbeTask → ReqResult) : List ProbeTask → Except PyErr (List ProbeOutcome)
  | [] => .ok []
  | t :: ts =>
    match workerStep net t with
    | .error e => .error e
    | .ok Option.none => workerRun net ts
    | .ok (Option.some r) =>
      match workerRun net ts with
      | .error e => .error e
      | .ok rs => .ok (r :: rs)

/-- All outcomes that reach the result queue when the whole batch of tasks is
processed (each task contributes its outcome exactly when its probe
succeeded). -/
def pipeResults (net : ProbeTask → ReqResult) (tasks : List ProbeTask) : List ProbeOutcome :=
  tasks.filterMap (fun t =>
    match workerStep net t with
    | .ok (Option.some r) => some r
    | _ => none)

/-- The numeric value the `printer` worker formats: the source computes
`response_time.seconds + response_time.microseconds / 10000000` (note the
divisor `10^7` in the source). -/
def codeLatency (response_time : Timedelta) : ℚ :=
  (response_time.seconds : ℚ) + (response_time.microseconds : ℚ) / 10000000

/-- The latency value the spec describes for the output line: the elapsed
time expressed in seconds, i.e. `seconds + microseconds / 10^6`.  This
definition follows the spec's words, for comparison with `codeLatency`. -/
def specLatencySeconds (response_time : Timedelta) : ℚ :=
  (response_time.seconds : ℚ) + (response_time.microseconds : ℚ) / 1000000

/-- The value the `printer` worker formats, in exact hundredths: the number
of hundredths that `'{:.2f}'` renders for
`seconds + microseconds / 10000000`, computed with integer arithmetic so that
concrete instances evaluate inside the kernel.  (An exact half-way tie rounds
up here where CPython's float formatting rounds to even; no value this
development evaluates is a tie.)  `centiOf_floor` below proves this equal to
`⌊codeLatency · * 100 + 1 / 2⌋`. -/
def centiOf (response_time : Timedelta) : Nat :=
  (response_time.seconds * 1000000000 + response_time.microseconds * 100 + 5000000)
    / 10000000

/-- The hundredths that `'{:.2f}'` would render for the latency the spec
describes, `seconds + microseconds / 1000000`.  This definition follows the
spec's words, for comparison with `centiOf`. -/
def specCentiOf (response_time : Timedelta) : Nat :=
  (response_time.seconds * 1000000000 + response_time.microseconds * 1000 + 5000000)
    / 10000000

/-- Render a number of hundredths as Python `'{:.2f}'` does for the
corresponding nonnegative value: the whole part, a dot, and exactly two
decimal digits. -/
def fmt2c (c : Nat) : String :=
  let frac : Nat := c % 100
  toString (c / 100) ++ "." ++ (if frac < 10 then "0" ++ toString frac else toString frac)

/-- One iteration of the `printer` loop body on a real (non-sentinel) result
dict: the line written to the output handle (the trailing newline of the
second `write` is left implicit).  Formatting `None` with `:.2f` raises a
`TypeError`. -/
def printerLine (output_data : ProbeOutcome) : Except PyErr String :=
  match output_data.response_time with
  | Option.none => .error (.typeError "unsupported format string passed to NoneType")
  | Option.some response_time =>
      .ok (output_data.proxy_type ++ "," ++ fmt2c (centiOf response_time) ++ ","
            ++ output_data.proxy_string)

/-- The output lines a single task contributes: none when the probe fails,
one when it succeeds, and an uncaught exception when the probe path raises. -/
def taskLines (net : ProbeTask → ReqResult) (t : ProbeTask) : Except PyErr (List String) :=
  match workerStep net t with
  | .error e => .error e
  | .ok Option.none => .ok []
  | .ok (Option.some r) =>
    match printerLine r with
    | .error e => .error e
    | .ok line => .ok [line]

/-- Parse one decimal octet of a dotted-quad IPv4 address. -/
def parseOctet (s : String) : Option Nat :=
  match pyToNat s with
  | Option.none => Option.none
  | Option.some n => if n ≤ 255 then some n else none

/-- Model of `netaddr.IPAddress` for dotted-quad IPv4 strings: the address's
32-bit numeric value, or `none` for a malformed host
(`netaddr.AddrFormatError`). -/
def parseIPv4 (s : String) : Option Nat :=
  match pySplit s '.' with
  | [a, b, c, d] =>
    match parseOctet a, parseOctet b, parseOctet c, parseOctet d with
    | some a, some b, some c, some d => some (((a * 256 + b) * 256 + c) * 256 + d)
    | _, _, _, _ => Option.none
  | _ => Option.none

/-- A parsed exclusion entry: either `netaddr.IPRange(start, stop)` or
`netaddr.IPNetwork(block)`, each reduced to its first and last numeric
address. -/
inductive IPRangeT where
  | iprange (lo hi : Nat)
  | ipnetwork (lo hi : Nat)
  deriving Repr, DecidableEq

/-- The `netaddr` membership test `netip in r`. -/
def rangeContains : IPRangeT → Nat → Bool
  | .iprange lo hi, ip => decide (lo ≤ ip) && decide (ip ≤ hi)
  | .ipnetwork lo hi, ip => decide (lo ≤ ip) && decide (ip ≤ hi)

/-- Model of `netaddr.IPNetwork` on IPv4 CIDR text: `a.b.c.d/p` (or a bare
address, which gets an implicit `/32`), reduced to the network's first and
last address. -/
def parseNetwork (block : String) : Option (Nat × Nat) :=
  match pySplit block '/' with
  | [ipstr] => (parseIPv4 ipstr).map (fun ip => (ip, ip))
  | [ipstr, pstr] =>
    match parseIPv4 ipstr, pyToNat pstr with
    | some ip, some p =>
      if p ≤ 32 then
        let hosts := 2 ^ (32 - p)
        let lo := ip / hosts * hosts
        some (lo, lo + hosts - 1)
      else Option.none
    | _, _ => Option.none
  | _ => Option.none

/-- Parsing of one exclusion entry, as in the blacklist loop of
`clean_addresses`: an entry containing `-` is unpacked into `start, end` (a
split into more than two pieces raises an uncaught `ValueError`) and handed
to `IPRange` (which rejects a reversed or malformed range); otherwise the
entry goes to `IPNetwork`.  An `AddrFormatError` from either is re-raised as
`Exception("Error importing blocks: ...")`. -/
def parseBlock (block : String) : Except PyErr IPRangeT :=
  if strIn "-" block then
    match pySplit block '-' with
    | [start, stop] =>
      match parseIPv4 start, parseIPv4 stop with
      | some lo, some hi =>
        if lo ≤ hi then .ok (.iprange lo hi)
        else .error (.exception ("Error importing blocks: " ++ block))
      | _, _ => .error (.exception ("Error importing blocks: " ++ block))
    | _ => .error (.valueError "too many values to unpack (expected 2)")
  else
    match parseNetwork block with
    | some (lo, hi) => .ok (.ipnetwork lo hi)
    | Option.none => .error (.exception ("Error importing blocks: " ++ block))

/-- The address-parsing loop at the top of `clean_addresses`: each address is
unpacked as `(ip, port) = address.split(':')` — the unpacking itself is
outside the `try`, so an address that does not split into exactly two pieces
raises an uncaught `ValueError` — and a host rejected by `netaddr.IPAddress`
is logged and skipped. -/
def parsePhase : List String → Except PyErr (List (String × Nat))
  | [] => .ok []
  | address :: rest =>
    match pySplit address ':' with
    | [ip, port] =>
      match parseIPv4 ip with
      | some netip =>
        match parsePhase rest with
        | .error e => .error e
        | .ok tail => .ok ((address, netip) :: tail)
      | Option.none => parsePhase rest
    | _ => .error (.valueError "values to unpack ip, port (expected 2)")

/-- The blacklist-parsing loop of `clean_addresses`: parse each entry in
order; the first failure raises. -/
def rangesPhase : List String → Except PyErr (List IPRangeT)
  | [] => .ok []
  | block :: rest =>
    match parseBlock block with
    | .error e => .error e
    | .ok r =>
      match rangesPhase rest with
      | .error e => .error e
      | .ok rs => .ok (r :: rs)

/-- Embedding of `clean_addresses`: parse and validate the addresses, parse
the blacklist, return the addresses unchanged when no ranges were supplied,
and otherwise keep each parsed address exactly when its host lies in no
range (the first matching range short-circuits the scan). -/
def clean_addresses (addresses : List String) (blacklist : List String) :
    Except PyErr (List String) :=
  match parsePhase addresses with
  | .error e => .error e
  | .ok parsed_addresses =>
    match rangesPhase blacklist with
    | .error e => .error e
    | .ok ranges =>
      if ranges.isEmpty then
        .ok (parsed_addresses.map Prod.fst)
      else
        .ok (parsed_addresses.filterMap (fun addr =>
          if ranges.any (fun r => rangeContains r addr.2) then Option.none
          else some addr.1))

/-- The host's numeric IP of a candidate address, when the candidate is in
`host:port` form and the host parses. -/
def hostIPOf (address : String) : Option Nat :=
  match pySplit address ':' with
  | [ip, port] => parseIPv4 ip
  | _ => Option.none

/-- Python iteration over a string yields its characters as 1-character
strings. -/
def strChars (s : String) : List String :=
  s.data.map (fun c => String.singleton c)

/-- The value of `args.proxy_type`: argparse leaves the default — the plain
string `'http'` — untouched when the flag is absent, and builds a list of
strings (`nargs='*'`) when it is given. -/
inductive PtypeArg where
  | str (s : String)
  | list (l : List String)
  deriving Repr, DecidableEq

/-- What `for ptype in args.proxy_type` iterates over: the characters of the
default string, or the elements of the list. -/
def ptypeValues : PtypeArg → List String
  | .str s => strChars s
  | .list l => l

/-- The queue-filling loop of `__main__`: one task dict per surviving proxy
per iterated `ptype`, in loop order. -/
def fillQueue (target_address : String) (timeout : Nat)
    (text_present text_absent : Option String)
    (good_proxies : List String) (proxy_type : PtypeArg) : List ProbeTask :=
  (good_proxies.map (fun proxy =>
    (ptypeValues proxy_type).map (fun ptype =>
      { target_address := target_address, proxy_string := proxy, timeout := timeout,
        text_present := text_present, text_absent := text_absent,
        proxy_type := ptype }))).flatten

/-- The pre-flight path of `__main__`: clean the loaded proxies against the
exclusion list (any exception there propagates and aborts the run before the
queue is filled), then fill the work queue. -/
def mainEnqueue (loaded_proxies exclusions : List String) (target_address : String)
    (timeout : Nat) (text_present text_absent : Option String)
    (proxy_type : PtypeArg) : Except PyErr (List ProbeTask) :=
  match clean_addresses loaded_proxies exclusions with
  | .error e => .error e
  | .ok good_proxies =>
      .ok (fillQueue target_address timeout text_present text_absent good_proxies proxy_type)

theorem guard_false_of_valid {pt : String} (h : hasValidPtype pt) :
    (!(strIn "socks" (pyLower pt)) && !(strIn "http" (pyLower pt))) = false := by
  unfold hasValidPtype at h
  cases hs : strIn "socks" (pyLower pt) <;> cases hh : strIn "http" (pyLower pt) <;>
    simp_all

/-- The integer computation of the printed hundredths agrees with the source's
formula `seconds + microseconds / 10000000` rounded to hundredths. -/
theorem centiOf_floor (rt : Timedelta) :
    (centiOf rt : ℤ) = ⌊codeLatency rt * 100 + 1 / 2⌋ := by
  unfold centiOf codeLatency
  have h : ((rt.seconds : ℚ) + (rt.microseconds : ℚ) / 10000000) * 100 + 1 / 2
      = (((rt.seconds * 1000000000 + rt.microseconds * 100 + 5000000 : ℕ) : ℤ) : ℚ)
        / ((10000000 : ℕ) : ℚ) := by
    push_cast
    ring
  rw [h, Rat.floor_intCast_div_natCast]
  exact Int.natCast_div _ _

/-- The integer computation of the spec-side hundredths agrees with the
latency in seconds rounded to hundredths. -/
theorem specCentiOf_floor (rt : Timedelta) :
    (specCentiOf rt : ℤ) = ⌊specLatencySeconds rt * 100 + 1 / 2⌋ := by
  unfold specCentiOf specLatencySeconds
  have h : ((rt.seconds : ℚ) + (rt.microseconds : ℚ) / 1000000) * 100 + 1 / 2
      = (((rt.seconds * 1000000000 + rt.microseconds * 1000 + 5000000 : ℕ) : ℤ) : ℚ)
        / ((10000000 : ℕ) : ℚ) := by
    push_cast
    ring
  rw [h, Rat.floor_intCast_div_natCast]
  exact Int.natCast_div _ _

theorem guard_true_of_invalid {pt : String} (h : ¬ hasValidPtype pt) :
    (!(strIn "socks" (pyLower pt)) && !(strIn "http" (pyLower pt))) = true := by
  unfold hasValidPtype at h
  cases hs : strIn "socks" (pyLower pt) <;> cases hh : strIn "http" (pyLower pt) <;>
    simp_all

/-- On an invalid proxy type, `isGoodProxy` raises before doing anything
else. -/
theorem isGoodProxy_invalid_ptype (target_address proxy_string proxy_type : String)
    (timeout : Nat) (text_present : Option String) (text_absent : PyVal) (req : ReqResult)
    (h : ¬ hasValidPtype proxy_type) :
    isGoodProxy target_address proxy_string proxy_type timeout text_present text_absent req
      = .error (.exception ("Invalid proxy type " ++ proxy_type)) := by
  unfold isGoodProxy
  rw [guard_true_of_invalid h]
  simp

/-- On a connectivity error or any other request exception, `isGoodProxy`
returns the failure dict. -/
theorem isGoodProxy_reqError (target_address proxy_string proxy_type : String)
    (timeout : Nat) (text_present : Option String) (text_absent : PyVal) (req : ReqResult)
    (hpt : hasValidPtype proxy_type)
    (hreq : req = .connectError ∨ ∃ m, req = .otherError m) :
    isGoodProxy target_address proxy_string proxy_type timeout text_present text_absent req
      = .ok { proxy_string := proxy_string, proxy_type := proxy_type,
              success := false, response_time := Option.none } := by
  unfold isGoodProxy
  rw [guard_false_of_valid hpt]
  rcases hreq with h | ⟨m, h⟩ <;> rw [h] <;> simp

/-- On a response, with `text_absent` an optional string (as `__main__`
always passes it), `isGoodProxy` returns the outcome dict whose success bit
is the conjunction of the two content checks and whose `response_time` is the
response's elapsed time. -/
theorem isGoodProxy_response (target_address proxy_string proxy_type : String)
    (timeout : Nat) (text_present text_absent : Option String)
    (text : String) (elapsed : Timedelta) (hpt : hasValidPtype proxy_type) :
    isGoodProxy target_address proxy_string proxy_type timeout text_present
        (pyOfOption text_absent) (.response text elapsed)
      = .ok { proxy_string := proxy_string, proxy_type := proxy_type,
              success :=
                (match text_present with
                 | Option.none => true
                 | Option.some t => strIn t text)
                && (match text_absent with
                    | Option.none => true
                    | Option.some t => !(strIn t text)),
              response_time := some elapsed } := by
  unfold isGoodProxy pyOfOption
  rw [guard_false_of_valid hpt]
  cases text_present <;> cases text_absent <;> simp

/-- C10: calling `isGoodProxy` with `text_absent` left at its default (the
boolean `True`) makes the absence check evaluate `True not in response.text`,
a `TypeError`, whenever the request returns a response — so the documented
no-absence-check behavior is only reachable by passing `text_absent=None`
explicitly, which does return an outcome dict. -/
theorem default_text_absent_raises (target_address proxy_string proxy_type : String)
    (timeout : Nat) (text_present : Option String) (text : String) (elapsed : Timedelta)
    (hpt : hasValidPtype proxy_type) :
    isGoodProxy target_address proxy_string proxy_type timeout text_present
        text_absent_default (.response text elapsed)
      = .error (.typeError "in <string> requires string as left operand, not bool")
    ∧ ∃ r, isGoodProxy target_address proxy_string proxy_type timeout text_present
        PyVal.none (.response text elapsed) = .ok r := by
  constructor
  · unfold isGoodProxy text_absent_default
    rw [guard_false_of_valid hpt]
    simp
  · exact ⟨_, isGoodProxy_response target_address proxy_string proxy_type timeout
      text_present Option.none text elapsed hpt⟩

theorem default_text_absent_raises_witness :
    isGoodProxy "http://checkip.dyndns.com/" "1.2.3.4:8080" "http" 8 Option.none
        text_absent_default (.response "hello" ⟨0, 0⟩)
      = .error (.typeError "in <string> requires string as left operand, not bool")
    ∧ ∃ r, isGoodProxy "http://checkip.dyndns.com/" "1.2.3.4:8080" "http" 8 Option.none
        PyVal.none (.response "hello" ⟨0, 0⟩) = .ok r :=
  default_text_absent_raises "http://checkip.dyndns.com/" "1.2.3.4:8080" "http" 8
    Option.none "hello" ⟨0, 0⟩ (by decide)

/-- C6: for a probe whose request returns a response, success holds iff the
configured must-contain string appears in the body and the configured
must-not-contain string is absent from it (each check vacuous when not
configured); a failing configured check yields a failure outcome, not an
error, and with neither configured the outcome is a success. -/
theorem content_checks_gate_success (target_address proxy_string proxy_type : String)
    (timeout : Nat) (text_present text_absent : Option String)
    (text : String) (elapsed : Timedelta) (hpt : hasValidPtype proxy_type) :
    ∃ r, isGoodProxy target_address proxy_string proxy_type timeout text_present
        (pyOfOption text_absent) (.response text elapsed) = .ok r
      ∧ (r.success = true ↔
          ((∀ s, text_present = some s → strIn s text = true)
            ∧ (∀ s, text_absent = some s → strIn s text = false))) := by
  refine ⟨_, isGoodProxy_response target_address proxy_string proxy_type timeout
    text_present text_absent text elapsed hpt, ?_⟩
  cases text_present <;> cases text_absent <;> simp

theorem content_checks_gate_success_witness :
    ∃ r, isGoodProxy "http://checkip.dyndns.com/" "1.2.3.4:8080" "http" 8 (some "secret")
        (pyOfOption Option.none) (.response "hello" ⟨0, 200000⟩) = .ok r
      ∧ (r.success = true ↔
          ((∀ s, (some "secret" : Option String) = some s → strIn s "hello" = true)
            ∧ (∀ s, (Option.none : Option String) = some s → strIn s "hello" = false))) :=
  content_checks_gate_success "http://checkip.dyndns.com/" "1.2.3.4:8080" "http" 8
    (some "secret") Option.none "hello" ⟨0, 200000⟩ (by decide)

/-- C5 counterexample: a content-check mismatch on an otherwise successful
response yields a failure outcome whose latency field is nonetheless present
(`response.elapsed`), refuting that the latency is absent on every failure. -/
theorem content_mismatch_latency_present :
    isGoodProxy "http://checkip.dyndns.com/" "1.2.3.4:8080" "http" 8 (some "secret")
        PyVal.none (.response "hello" ⟨0, 200000⟩)
      = .ok { proxy_string := "1.2.3.4:8080", proxy_type := "http",
              success := false, response_time := some ⟨0, 200000⟩ } := by
  rfl

/-- C5 amended: the latency field of an `isGoodProxy` outcome is absent
(`None`) exactly when the request raised (a connectivity error or any other
request exception); whenever a response is obtained the outcome carries its
elapsed time, even when content checks fail and the success flag is false. -/
theorem response_time_none_iff_request_error (target_address proxy_string proxy_type : String)
    (timeout : Nat) (text_present text_absent : Option String) (req : ReqResult)
    (hpt : hasValidPtype proxy_type) (r : ProbeOutcome)
    (h : isGoodProxy target_address proxy_string proxy_type timeout text_present
        (pyOfOption text_absent) req = .ok r) :
    (r.response_time = Option.none ↔ (req = .connectError ∨ ∃ m, req = .otherError m))
    ∧ (∀ text elapsed, req = .response text elapsed → r.response_time = some elapsed) := by
  cases req with
  | connectError =>
    rw [isGoodProxy_reqError target_address proxy_string proxy_type timeout text_present
      (pyOfOption text_absent) _ hpt (Or.inl rfl)] at h
    cases h
    simp
  | otherError m =>
    rw [isGoodProxy_reqError target_address proxy_string proxy_type timeout text_present
      (pyOfOption text_absent) _ hpt (Or.inr ⟨m, rfl⟩)] at h
    cases h
    simp
  | response text elapsed =>
    rw [isGoodProxy_response target_address proxy_string proxy_type timeout text_present
      text_absent text elapsed hpt] at h
    cases h
    simp

theorem response_time_none_iff_request_error_witness :
    (({ proxy_string := "1.2.3.4:8080", proxy_type := "http", success := false,
        response_time := Option.none } : ProbeOutcome).response_time = Option.none
      ↔ (ReqResult.connectError = .connectError
          ∨ ∃ m, ReqResult.connectError = .otherError m))
    ∧ (∀ text elapsed, ReqResult.connectError = .response text elapsed →
        ({ proxy_string := "1.2.3.4:8080", proxy_type := "http", success := false,
           response_time := Option.none } : ProbeOutcome).response_time = some elapsed) :=
  response_time_none_iff_request_error "http://checkip.dyndns.com/" "1.2.3.4:8080" "http"
    8 Option.none Option.none .connectError (by decide) _ (by rfl)

/-- C7: a probe whose request raises a connectivity error is scored as a
failed outcome with the success flag false, the error is caught inside
`isGoodProxy` (so the worker's step returns normally rather than raising),
and the task contributes no output line. -/
theorem connectivity_error_contained (net : ProbeTask → ReqResult) (t : ProbeTask)
    (hpt : hasValidPtype t.proxy_type) (h : net t = .connectError) :
    isGoodProxy t.target_address t.proxy_string t.proxy_type t.timeout t.text_present
        (pyOfOption t.text_absent) (net t)
      = .ok { proxy_string := t.proxy_string, proxy_type := t.proxy_type,
              success := false, response_time := Option.none }
    ∧ workerStep net t = .ok Option.none
    ∧ taskLines net t = .ok [] := by
  have h1 : isGoodProxy t.target_address t.proxy_string t.proxy_type t.timeout
      t.text_present (pyOfOption t.text_absent) (net t)
      = .ok { proxy_string := t.proxy_string, proxy_type := t.proxy_type,
              success := false, response_time := Option.none } := by
    rw [h]
    exact isGoodProxy_reqError _ _ _ _ _ _ _ hpt (Or.inl rfl)
  have h2 : workerStep net t = .ok Option.none := by
    unfold workerStep
    rw [h1]
    simp
  refine ⟨h1, h2, ?_⟩
  unfold taskLines
  rw [h2]

theorem connectivity_error_contained_witness :
    isGoodProxy "http://checkip.dyndns.com/" "1.2.3.4:8080" "http" 8 Option.none
        (pyOfOption Option.none)
        ((fun _ => ReqResult.connectError)
          ({ target_address := "http://checkip.dyndns.com/", proxy_string := "1.2.3.4:8080",
             timeout := 8, text_present := Option.none, text_absent := Option.none,
             proxy_type := "http" } : ProbeTask))
      = .ok { proxy_string := "1.2.3.4:8080", proxy_type := "http",
              success := false, response_time := Option.none }
    ∧ workerStep (fun _ => ReqResult.connectError)
        { target_address := "http://checkip.dyndns.com/", proxy_string := "1.2.3.4:8080",
          timeout := 8, text_present := Option.none, text_absent := Option.none,
          proxy_type := "http" } = .ok Option.none
    ∧ taskLines (fun _ => ReqResult.connectError)
        { target_address := "http://checkip.dyndns.com/", proxy_string := "1.2.3.4:8080",
          timeout := 8, text_present := Option.none, text_absent := Option.none,
          proxy_type := "http" } = .ok [] :=
  connectivity_error_contained (fun _ => ReqResult.connectError)
    { target_address := "http://checkip.dyndns.com/", proxy_string := "1.2.3.4:8080",
      timeout := 8, text_present := Option.none, text_absent := Option.none,
      proxy_type := "http" } (by decide) (by rfl)

/-- C4 counterexample: an exception raised inside the per-task probe path is
not contained — a task whose protocol variant is unrecognized makes
`isGoodProxy` raise, the worker has no handler, and the exception propagates
out of the worker loop, so the following task of this worker is never
processed. -/
theorem probe_exception_kills_worker :
    workerRun (fun _ => .connectError)
        [{ target_address := "http://checkip.dyndns.com/", proxy_string := "1.2.3.4:8080",
           timeout := 8, text_present := Option.none, text_absent := Option.none,
           proxy_type := "ftp" },
         { target_address := "http://checkip.dyndns.com/", proxy_string := "5.6.7.8:3128",
           timeout := 8, text_present := Option.none, text_absent := Option.none,
           proxy_type := "http" }]
      = .error (.exception "Invalid proxy type ftp") := by
  rfl

/-- C4 amended: exceptions the request raises inside `isGoodProxy`
(connectivity errors and other transport errors) are contained to the task
and the worker continues with the remaining tasks; but an exception raised by
`isGoodProxy` itself — an unrecognized protocol variant — propagates out of
the worker loop and terminates that worker, aborting its remaining tasks. -/
theorem worker_exception_policy (net : ProbeTask → ReqResult) (t : ProbeTask)
    (ts : List ProbeTask) :
    (hasValidPtype t.proxy_type →
      (net t = .connectError ∨ ∃ m, net t = .otherError m) →
      workerRun net (t :: ts) = workerRun net ts)
    ∧ (¬ hasValidPtype t.proxy_type →
      workerRun net (t :: ts)
        = .error (.exception ("Invalid proxy type " ++ t.proxy_type))) := by
  constructor
  · intro hpt hreq
    have h1 : workerStep net t = .ok Option.none := by
      unfold workerStep
      rw [isGoodProxy_reqError _ _ _ _ _ _ _ hpt hreq]
      simp
    show (match workerStep net t with
      | Except.error e => Except.error e
      | Except.ok Option.none => workerRun net ts
      | Except.ok (Option.some r) =>
        match workerRun net ts with
        | Except.error e => Except.error e
        | Except.ok rs => Except.ok (r :: rs)) = workerRun net ts
    rw [h1]
  · intro hpt
    have h1 : workerStep net t
        = .error (.exception ("Invalid proxy type " ++ t.proxy_type)) := by
      unfold workerStep
      rw [isGoodProxy_invalid_ptype _ _ _ _ _ _ _ hpt]
    show (match workerStep net t with
      | Except.error e => Except.error e
      | Except.ok Option.none => workerRun net ts
      | Except.ok (Option.some r) =>
        match workerRun net ts with
        | Except.error e => Except.error e
        | Except.ok rs => Except.ok (r :: rs))
      = .error (.exception ("Invalid proxy type " ++ t.proxy_type))
    rw [h1]

theorem worker_exception_policy_witness :
    workerRun (fun _ => ReqResult.connectError)
        [{ target_address := "http://checkip.dyndns.com/", proxy_string := "1.2.3.4:8080",
           timeout := 8, text_present := Option.none, text_absent := Option.none,
           proxy_type := "http" }]
      = workerRun (fun _ => ReqResult.connectError) [] :=
  (worker_exception_policy (fun _ => ReqResult.connectError)
    { target_address := "http://checkip.dyndns.com/", proxy_string := "1.2.3.4:8080",
      timeout := 8, text_present := Option.none, text_absent := Option.none,
      proxy_type := "http" } []).1 (by decide) (Or.inl rfl)

theorem eq_pair_of_length_two {α : Type} {l : List α} (h : l.length = 2) :
    ∃ x y, l = [x, y] := by
  cases l with
  | nil => simp at h
  | cons x t =>
    cases t with
    | nil => simp at h
    | cons y u =>
      cases u with
      | nil => exact ⟨x, y, rfl⟩
      | cons z v => simp at h

/-- The address loop of `clean_addresses` on a list whose entries all unpack
into `(ip, port)`: it returns normally, pairing each address whose host
parses with its numeric IP and skipping the rest. -/
theorem parsePhase_ok_of_twoparts (addrs : List String)
    (h : ∀ a ∈ addrs, (pySplit a ':').length = 2) :
    parsePhase addrs
      = .ok (addrs.filterMap (fun a => (hostIPOf a).map (fun n => (a, n)))) := by
  induction addrs with
  | nil => rfl
  | cons a rest ih =>
    obtain ⟨ip, port, hsplit⟩ := eq_pair_of_length_two (h a (List.mem_cons_self a rest))
    have ihr := ih (fun x hx => h x (List.mem_cons_of_mem a hx))
    have hhost : hostIPOf a = parseIPv4 ip := by
      unfold hostIPOf
      rw [hsplit]
    unfold parsePhase
    rw [hsplit, ihr]
    cases hip : parseIPv4 ip <;> simp [List.filterMap_cons, hhost, hip]

/-- A head entry that does not unpack into `(ip, port)` raises the
`ValueError` immediately. -/
theorem parsePhase_cons_bad (a : String) (rest : List String)
    (ha : (pySplit a ':').length ≠ 2) :
    parsePhase (a :: rest)
      = .error (.valueError "values to unpack ip, port (expected 2)") := by
  unfold parsePhase
  cases hs : pySplit a ':' with
  | nil => rfl
  | cons x t =>
    cases t with
    | nil => rfl
    | cons y u =>
      cases u with
      | nil => exact absurd (by rw [hs]; rfl) ha
      | cons z v => rfl

/-- Some entry fails to unpack into `(ip, port)`: the address loop raises. -/
theorem parsePhase_error_of_badsplit (addrs : List String)
    (h : ∃ a ∈ addrs, (pySplit a ':').length ≠ 2) :
    parsePhase addrs
      = .error (.valueError "values to unpack ip, port (expected 2)") := by
  induction addrs with
  | nil => simp at h
  | cons a rest ih =>
    by_cases ha : (pySplit a ':').length = 2
    · have hrest : ∃ x ∈ rest, (pySplit x ':').length ≠ 2 := by
        obtain ⟨b, hb, hlen⟩ := h
        rcases List.mem_cons.mp hb with rfl | hbr
        · exact absurd ha hlen
        · exact ⟨b, hbr, hlen⟩
      obtain ⟨ip, port, hsplit⟩ := eq_pair_of_length_two ha
      unfold parsePhase
      rw [hsplit]
      cases hip : parseIPv4 ip <;> simp [ih hrest, hip]
    · exact parsePhase_cons_bad a rest ha

/-- Projecting the surviving addresses out of the parsed pairs keeps exactly
the entries whose host parses, in order. -/
theorem filterMap_host_fst (addrs : List String) :
    (addrs.filterMap (fun a => (hostIPOf a).map (fun n => (a, n)))).map Prod.fst
      = addrs.filter (fun a => (hostIPOf a).isSome) := by
  induction addrs with
  | nil => rfl
  | cons a rest ih =>
    cases h : hostIPOf a <;> simp [List.filterMap_cons, h, ih]

/-- If some exclusion entry fails to parse, the blacklist loop raises. -/
theorem rangesPhase_error_of_mem (blacklist : List String)
    (h : ∃ b ∈ blacklist, ∃ e, parseBlock b = .error e) :
    ∃ e, rangesPhase blacklist = .error e := by
  induction blacklist with
  | nil => simp at h
  | cons b rest ih =>
    cases hb : parseBlock b with
    | error e =>
      exact ⟨e, by unfold rangesPhase; rw [hb]⟩
    | ok r =>
      have hrest : ∃ x ∈ rest, ∃ e, parseBlock x = .error e := by
        obtain ⟨c, hc, e, he⟩ := h
        rcases List.mem_cons.mp hc with rfl | hcr
        · rw [hb] at he
          cases he
        · exact ⟨c, hcr, e, he⟩
      obtain ⟨e, he⟩ := ih hrest
      exact ⟨e, by unfold rangesPhase; rw [hb, he]⟩

/-- C2 counterexample: a candidate that is not in `host:port` form at all —
here one with no colon — makes `clean_addresses` raise an uncaught
`ValueError` (the tuple unpacking is outside the `try`), aborting the batch
rather than dropping the entry. -/
theorem colonless_candidate_raises :
    clean_addresses ["1.2.3.4"] []
      = .error (.valueError "values to unpack ip, port (expected 2)") := by
  rfl

/-- C2 amended: a candidate that splits into exactly a host and a port on
`:` and whose host fails to parse as an IP address is dropped with a
diagnostic and `clean_addresses` returns normally; but a candidate that does
not split into exactly two pieces raises an uncaught `ValueError` that aborts
the batch. -/
theorem malformed_host_dropped (addrs : List String) :
    ((∀ a ∈ addrs, (pySplit a ':').length = 2) →
      clean_addresses addrs [] = .ok (addrs.filter (fun a => (hostIPOf a).isSome)))
    ∧ ((∃ a ∈ addrs, (pySplit a ':').length ≠ 2) →
      clean_addresses addrs []
        = .error (.valueError "values to unpack ip, port (expected 2)")) := by
  constructor
  · intro h
    unfold clean_addresses
    rw [parsePhase_ok_of_twoparts addrs h]
    show Except.ok
        ((addrs.filterMap (fun a => (hostIPOf a).map (fun n => (a, n)))).map Prod.fst)
      = _
    rw [filterMap_host_fst]
  · intro h
    unfold clean_addresses
    rw [parsePhase_error_of_badsplit addrs h]

theorem malformed_host_dropped_witness :
    clean_addresses ["1.2.3.4:8080", "300.0.0.1:3128"] []
      = .ok ((["1.2.3.4:8080", "300.0.0.1:3128"]).filter (fun a => (hostIPOf a).isSome)) :=
  (malformed_host_dropped ["1.2.3.4:8080", "300.0.0.1:3128"]).1 (by decide)

/-- C9: with a parsed, non-empty exclusion list, `clean_addresses` excludes a
well-formed candidate exactly when its host lies inside at least one range
and retains, in order, every candidate whose host lies outside all ranges;
with an empty exclusion list it returns exactly the well-formed subset of the
input, unchanged in order. -/
theorem exclusion_filter_characterization (addrs blacklist : List String)
    (ranges : List IPRangeT)
    (hsplit : ∀ a ∈ addrs, (pySplit a ':').length = 2) :
    (rangesPhase blacklist = .ok ranges → ranges ≠ [] →
      clean_addresses addrs blacklist
        = .ok (addrs.filterMap (fun a =>
            match hostIPOf a with
            | Option.none => Option.none
            | Option.some ip =>
              if ranges.any (fun r => rangeContains r ip) then Option.none
              else some a)))
    ∧ clean_addresses addrs []
        = .ok (addrs.filter (fun a => (hostIPOf a).isSome)) := by
  constructor
  · intro hr hne
    have hie : ranges.isEmpty = false := by
      cases ranges with
      | nil => exact absurd rfl hne
      | cons r rs => rfl
    unfold clean_addresses
    rw [parsePhase_ok_of_twoparts addrs hsplit, hr]
    show (if ranges.isEmpty then _ else _) = _
    rw [hie]
    show Except.ok ((addrs.filterMap (fun a => (hostIPOf a).map (fun n => (a, n)))).filterMap
        (fun addr =>
          if ranges.any (fun r => rangeContains r addr.2) then Option.none
          else some addr.1)) = _
    rw [List.filterMap_filterMap]
    refine congrArg Except.ok (List.filterMap_congr (fun a _ => ?_))
    cases h : hostIPOf a <;> simp [h]
  · unfold clean_addresses
    rw [parsePhase_ok_of_twoparts addrs hsplit]
    show Except.ok
        ((addrs.filterMap (fun a => (hostIPOf a).map (fun n => (a, n)))).map Prod.fst)
      = _
    rw [filterMap_host_fst]

theorem exclusion_filter_characterization_witness :
    clean_addresses ["1.2.3.4:8080", "10.0.0.1:3128"] ["10.0.0.0/8"]
      = .ok ((["1.2.3.4:8080", "10.0.0.1:3128"]).filterMap (fun a =>
          match hostIPOf a with
          | Option.none => Option.none
          | Option.some ip =>
            if ([IPRangeT.ipnetwork 167772160 184549375]).any (fun r => rangeContains r ip)
            then Option.none
            else some a)) :=
  (exclusion_filter_characterization ["1.2.3.4:8080", "10.0.0.1:3128"] ["10.0.0.0/8"]
    [IPRangeT.ipnetwork 167772160 184549375] (by decide)).1 (by rfl) (by simp)

/-- C8: an exclusion list containing a malformed entry makes
`clean_addresses` raise — aborting the run — and this happens in the
pre-flight path of `__main__`, before any probe task is created or
enqueued. -/
theorem malformed_exclusion_aborts (loaded_proxies exclusions : List String)
    (target_address : String) (timeout : Nat) (text_present text_absent : Option String)
    (proxy_type : PtypeArg)
    (h : ∃ b ∈ exclusions, ∃ e, parseBlock b = .error e) :
    (∃ e, clean_addresses loaded_proxies exclusions = .error e)
    ∧ ∃ e, mainEnqueue loaded_proxies exclusions target_address timeout text_present
        text_absent proxy_type = .error e := by
  have hclean : ∃ e, clean_addresses loaded_proxies exclusions = .error e := by
    obtain ⟨e, he⟩ := rangesPhase_error_of_mem exclusions h
    cases hp : parsePhase loaded_proxies with
    | error e2 => exact ⟨e2, by unfold clean_addresses; rw [hp]⟩
    | ok parsed => exact ⟨e, by unfold clean_addresses; rw [hp, he]⟩
  obtain ⟨e, he⟩ := hclean
  exact ⟨⟨e, he⟩, e, by unfold mainEnqueue; rw [he]⟩

theorem malformed_exclusion_aborts_witness :
    (∃ e, clean_addresses ["1.2.3.4:8080"] ["bogus"] = .error e)
    ∧ ∃ e, mainEnqueue ["1.2.3.4:8080"] ["bogus"] "http://checkip.dyndns.com/" 5
        Option.none Option.none (.list ["http"]) = .error e :=
  malformed_exclusion_aborts ["1.2.3.4:8080"] ["bogus"] "http://checkip.dyndns.com/" 5
    Option.none Option.none (.list ["http"])
    ⟨"bogus", by simp, .exception "Error importing blocks: bogus", by rfl⟩

/-- The result queue receives at most one outcome per enqueued task. -/
theorem pipeResults_length_le (net : ProbeTask → ReqResult) (tasks : List ProbeTask) :
    (pipeResults net tasks).length ≤ tasks.length :=
  List.length_filterMap_le _ _

/-- C1: with `--proxy-type` left at its default, the fill loop iterates the
default *string* `'http'` character by character, enqueueing four tasks per
surviving address — with protocol variants `h`, `t`, `t`, `p` — instead of
one task for the single requested variant `http` (which the explicit
list form does produce); the sink still receives at most one outcome per
enqueued task. -/
theorem default_proxy_type_iterates_chars :
    (fillQueue "http://checkip.dyndns.com/" 5 Option.none Option.none ["1.2.3.4:8080"]
        (.str "http")).map (fun t => t.proxy_type) = ["h", "t", "t", "p"]
    ∧ (fillQueue "http://checkip.dyndns.com/" 5 Option.none Option.none ["1.2.3.4:8080"]
        (.str "http")).length = 4
    ∧ (fillQueue "http://checkip.dyndns.com/" 5 Option.none Option.none ["1.2.3.4:8080"]
        (.list ["http"])).length = 1
    ∧ (pipeResults (fun _ => .connectError)
        (fillQueue "http://checkip.dyndns.com/" 5 Option.none Option.none ["1.2.3.4:8080"]
          (.str "http"))).length
      ≤ (fillQueue "http://checkip.dyndns.com/" 5 Option.none Option.none ["1.2.3.4:8080"]
          (.str "http")).length :=
  ⟨rfl, rfl, rfl, pipeResults_length_le _ _⟩

/-- C3: the latency field the `printer` worker writes for a successful
outcome is `seconds + microseconds / 10^7`, not the elapsed time in seconds
(`seconds + microseconds / 10^6`): for an elapsed time of 1.5 s the line
carries `1.05` where the spec's two-decimal seconds value is `1.50`. -/
theorem printer_latency_divergence :
    printerLine { proxy_string := "1.2.3.4:8080", proxy_type := "http", success := true,
                  response_time := some ⟨1, 500000⟩ }
      = .ok "http,1.05,1.2.3.4:8080"
    ∧ fmt2c (specCentiOf ⟨1, 500000⟩) = "1.50"
    ∧ codeLatency ⟨1, 500000⟩ ≠ specLatencySeconds ⟨1, 500000⟩ := by
  refine ⟨by rfl, by rfl, ?_⟩
  unfold codeLatency specLatencySeconds
  norm_num

end ProxyChecker
